import Mathlib

/-!
Verification of the OWTF command-line front-end (`owtf/cli.py`).

The file shallowly embeds the argument-resolution and bootstrap logic of
`owtf/cli.py` into Lean: Python strings become `String`, Python lists become
`List`, the process-terminating `usage(...)` / `exit(0)` calls and the raised
`IndexError` become an `Except` error channel, and the external collaborators
(plugin registry, filesystem, option parser, scan engine) become explicit
parameters.  All definitions are executable and kernel-reducible so that
concrete runs can be settled by `decide` / `rfl`.
-/

/-! ## Python string primitives

These model the exact Python string operations used by `cli.py`
(`str.split` with a one-character or the `"://"` separator, `str.strip`,
`int(...)` parseability, `str.format`, and subscripting `s[i]`), implemented
by structural recursion on the character list so the kernel can evaluate them.
-/

/-- Errors and process-terminating control flow of the CLI code:
`usage msg` models `usage(...)` (print message + usage, exit non-zero),
`exitSuccess` models `exit(0)` on the TOR help path, and
`indexError` models a raised Python `IndexError`. -/
inductive PyErr where
  | usage (msg : String)
  | exitSuccess
  | indexError
  deriving DecidableEq, Repr, Inhabited

/-- Splitting of a character list on a single separator character,
Python `s.split(c)` semantics: empty fields are kept, `"".split(c) = [""]`. -/
def splitOnChar (sep : Char) : List Char → List (List Char)
  | [] => [[]]
  | c :: cs =>
    let r := splitOnChar sep cs
    if c = sep then [] :: r
    else
      match r with
      | [] => [[c]]
      | h :: t => (c :: h) :: t

/-- Splitting of a character list on a three-character separator (used for
the `"://"` separator), Python `s.split("://")` semantics: left-to-right,
non-overlapping, empty fields kept. -/
def splitOnSep3 (s1 s2 s3 : Char) : List Char → List (List Char)
  | c1 :: c2 :: c3 :: rest =>
    if c1 = s1 ∧ c2 = s2 ∧ c3 = s3 then
      [] :: splitOnSep3 s1 s2 s3 rest
    else
      match splitOnSep3 s1 s2 s3 (c2 :: c3 :: rest) with
      | [] => [[c1]]
      | h :: t => (c1 :: h) :: t
  | other => [other]

/-- Python `s.split(sep)` for a one-character separator `sep`. -/
def pySplitChar (sep : Char) (s : String) : List String :=
  (splitOnChar sep s.data).map (fun l => ⟨l⟩)

/-- Python `s.split("://")`, as used for the outbound-proxy scheme separator. -/
def pySplitSchemeSep (s : String) : List String :=
  (splitOnSep3 ':' '/' '/' s.data).map (fun l => ⟨l⟩)

/-- Dropping of leading whitespace characters from a character list. -/
def dropLeadingWS : List Char → List Char
  | [] => []
  | c :: cs => if c.isWhitespace then dropLeadingWS cs else c :: cs

/-- Python `s.strip()`: remove leading and trailing whitespace (the ASCII
whitespace characters that occur in the inputs of this program). -/
def pyStrip (s : String) : String :=
  ⟨dropLeadingWS ((dropLeadingWS s.data.reverse).reverse)⟩

/-- Decides whether Python `int(s)` succeeds on the character list
(optional surrounding whitespace, optional sign, then one or more digits). -/
def pyIntParsesCore (cs : List Char) : Bool :=
  match cs with
  | '+' :: rest => !rest.isEmpty && rest.all Char.isDigit
  | '-' :: rest => !rest.isEmpty && rest.all Char.isDigit
  | _ => !cs.isEmpty && cs.all Char.isDigit

/-- Decides whether Python `int(s)` succeeds (i.e. whether the
`try: int(...) except ValueError` in the proxy checks takes the `try` arm). -/
def pyIntParses (s : String) : Bool :=
  pyIntParsesCore (dropLeadingWS ((dropLeadingWS s.data.reverse).reverse))

/-- Core of Python `str.format`: substitute each `\x7b\x7d` auto-numbered
replacement field by the next positional argument; all other characters are
copied verbatim.  A template with no replacement field is returned unchanged
(Python ignores surplus positional arguments) — this is what happens on the
`"socks://%s:%s".format(...)` call in `cli.py`, whose `%`-style placeholders
are not replacement fields. -/
def pyFormatAux : List Char → List String → List Char
  | [], _ => []
  | [c], _ => [c]
  | c1 :: c2 :: rest, args =>
    if c1 = '{' ∧ c2 = '}' then
      match args with
      | a :: as => a.data ++ pyFormatAux rest as
      | [] => pyFormatAux rest []
    else c1 :: pyFormatAux (c2 :: rest) args

/-- Python `template.format(args...)` restricted to auto-numbered fields. -/
def pyFormat (t : String) (args : List String) : String :=
  ⟨pyFormatAux t.data args⟩

/-- Python list subscription `lst[-1]` on a list of strings (all uses in
`cli.py` are on provably non-empty split results, so the default is never
returned). -/
def pyLastStr (l : List String) : String :=
  l.getLastD ""

/-- Python string subscription `s[i]` for a non-negative index: returns the
character, or raises `IndexError` when the index is out of range. -/
def pyStrIndex (s : String) (i : Nat) : Except PyErr Char :=
  match s.data.get? i with
  | some c => Except.ok c
  | none => Except.error PyErr.indexError

/-! ## Data model

`Args` is the result of the external `parse_options` call (the attribute
namespace `arg` in `process_options`); optional string options default to
the empty string, which is falsy in Python, so `x ≠ ""` models `if arg.x:`.
`CfgVal` models the dynamically-typed slots that hold either the original
option string or the list structure the code rebinds them to, and `Config`
is the dictionary returned by `process_options`. -/

/-- Value of a dynamically typed configuration slot: either the original
option string, a list of strings (a split result or an expanded type list),
or the two-element `[plugins, plugin_groups]` list returned by
`get_plugins_from_arg`. -/
inductive CfgVal where
  | str (s : String)
  | strList (l : List String)
  | pairList (plugins : List String) (groups : List String)
  deriving DecidableEq, Repr, Inhabited

/-- Raw parsed command-line options handed to `process_options` by the
external `parse_options` collaborator. -/
structure Args where
  PluginGroup : String
  PluginType : String
  CustomProfile : String
  OnlyPlugins : String
  ExceptPlugins : String
  TOR_mode : String
  OutboundProxy : String
  InboundProxy : String
  OutboundProxyAuth : String
  Targets : List String
  list_plugins : Bool
  ForceOverwrite : Bool
  Interactive : String
  Simulation : Bool
  RPort : String
  PortWaves : String
  ProxyMode : String
  nowebui : Bool
  deriving DecidableEq, Repr, Inhabited

/-- Dictionary returned by `process_options`. -/
structure Config where
  list_plugins : Bool
  Force_Overwrite : Bool
  Interactive : Bool
  Simulation : Bool
  Scope : List String
  argv : List String
  PluginType : CfgVal
  OnlyPlugins : CfgVal
  ExceptPlugins : CfgVal
  InboundProxy : CfgVal
  OutboundProxy : CfgVal
  OutboundProxyAuth : String
  Profiles : List (String × String)
  PluginGroup : String
  RPort : String
  PortWaves : String
  ProxyMode : String
  TOR_mode : CfgVal
  nowebui : Bool
  Args : CfgVal
  deriving DecidableEq, Repr, Inhabited

/-- External collaborators of `process_options` from `owtf.managers.plugin`:
`get_groups_for_plugins` returns the set (here: duplicate-free list) of
distinct plugin groups owning the given plugin codes/names, and
`get_types_for_plugin_group` returns the plugin types registered for a
group.  Modelled from the spec: these registry lookups live outside the
given source, which only calls them. -/
structure Collab where
  get_groups_for_plugins : List String → List String
  get_types_for_plugin_group : String → List String

/-- Filesystem collaborator: `pathExists` models `os.path.exists`,
`isfile` models `os.path.isfile`, and `read` models `open(p).read()` on a
path for which `isfile` is true. -/
structure FS where
  pathExists : String → Bool
  isfile : String → Bool
  read : String → String

/-! ## The resolver components (embedding of `process_options` and helpers) -/

/-- Embedding of `get_plugins_from_arg` (`cli.py` lines 47-59): split the
comma-separated plugin list, look up the owning groups, and fail with a
usage error when more than one group is touched.  Note the source builds the
error message with `str.format` on a `%`-style template, so the message is
the literal template. -/
def get_plugins_from_arg (C : Collab) (arg : String) :
    Except PyErr (List String × List String) :=
  let plugins := pySplitChar ',' arg
  let plugin_groups := C.get_groups_for_plugins plugins
  if plugin_groups.length > 1 then
    Except.error (PyErr.usage
      (pyFormat "The plugins specified belong to several plugin groups: '%s'"
        [toString plugin_groups]))
  else Except.ok (plugins, plugin_groups)

/-- Embedding of the custom-profile loop (`cli.py` lines 90-97): each
comma-separated `name:path` pair must split into exactly two chunks whose
path component exists, else `usage("Invalid Profile")`; valid pairs are
inserted into the `profiles` dict in order (later duplicates overwrite). -/
def profilesLoop (fs : FS) : List String → List (String × String) →
    Except PyErr (List (String × String))
  | [], acc => Except.ok acc
  | p :: rest, acc =>
    let chunks := pySplitChar ':' p
    if chunks.length ≠ 2 ∨ ¬ fs.pathExists (chunks.getD 1 "") then
      Except.error (PyErr.usage "Invalid Profile")
    else
      let k := chunks.getD 0 ""
      let v := chunks.getD 1 ""
      let acc' :=
        if acc.any (fun kv => kv.1 = k) then
          acc.map (fun kv => if kv.1 = k then (k, v) else kv)
        else acc ++ [(k, v)]
      profilesLoop fs rest acc'

/-- Embedding of the `arg.CustomProfile` guard around `profilesLoop`:
`profiles = dict()` stays empty when no custom profile was supplied. -/
def resolve_profiles (fs : FS) (customProfile : String) :
    Except PyErr (List (String × String)) :=
  if customProfile ≠ "" then profilesLoop fs (pySplitChar ',' customProfile) []
  else Except.ok []

/-- Embedding of the `arg.OnlyPlugins` block (`cli.py` lines 99-106):
rebinds `arg.OnlyPlugins` to `[plugins, plugin_groups]` and overrides the
plugin group with `plugin_groups[0]`, where an `IndexError` (empty group
list) becomes `usage("Please use either OWASP/OWTF codes or Plugin names")`. -/
def resolve_only_plugins (C : Collab) (plugin_group onlyPlugins : String) :
    Except PyErr (CfgVal × String) :=
  if onlyPlugins ≠ "" then
    match get_plugins_from_arg C onlyPlugins with
    | Except.error e => Except.error e
    | Except.ok (plugins, plugin_groups) =>
      match plugin_groups.head? with
      | some g => Except.ok (CfgVal.pairList plugins plugin_groups, g)
      | none =>
        Except.error (PyErr.usage "Please use either OWASP/OWTF codes or Plugin names")
  else Except.ok (CfgVal.str onlyPlugins, plugin_group)

/-- Embedding of the `arg.ExceptPlugins` block (`cli.py` lines 108-109):
validates group membership for its side effect only; the derived group is
not applied. -/
def resolve_except_plugins (C : Collab) (exceptPlugins : String) :
    Except PyErr CfgVal :=
  if exceptPlugins ≠ "" then
    match get_plugins_from_arg C exceptPlugins with
    | Except.error e => Except.error e
    | Except.ok (plugins, plugin_groups) =>
      Except.ok (CfgVal.pairList plugins plugin_groups)
  else Except.ok (CfgVal.str exceptPlugins)

/-- Embedding of the TOR-mode block body (`cli.py` lines 103-124) on the
colon-split spec: `help` as the first field prints the TOR guidance and
exits with success before any arity validation; one field other than `help`
or an arity other than 5 is a usage error; otherwise blank ip/port fields
fall back to `127.0.0.1`/`9050` and the outbound proxy string is synthesized
with `"socks://%s:%s".format(ip, port)` (returned as `some`; `none` leaves
`arg.OutboundProxy` unchanged). -/
def process_tor_mode (tm : String) : Except PyErr (List String × Option String) :=
  let parts := pySplitChar ':' tm
  if parts.headD "" = "help" then Except.error PyErr.exitSuccess
  else if parts.length = 1 then
    if parts.headD "" ≠ "help" then
      Except.error (PyErr.usage "Invalid argument for TOR-mode")
    else Except.ok (parts, none)
  else if parts.length ≠ 5 then
    Except.error (PyErr.usage "Invalid argument for TOR-mode")
  else
    let outbound_proxy_ip := if parts.getD 0 "" = "" then "127.0.0.1" else parts.getD 0 ""
    let outbound_proxy_port := if parts.getD 1 "" = "" then "9050" else parts.getD 1 ""
    Except.ok (parts, some (pyFormat "socks://%s:%s" [outbound_proxy_ip, outbound_proxy_port]))

/-- Embedding of the `arg.TOR_mode` guard: returns the rebound `TOR_mode`
field together with the (possibly overwritten) `arg.OutboundProxy` string. -/
def resolve_tor (torMode outboundProxy : String) : Except PyErr (CfgVal × String) :=
  if torMode ≠ "" then
    match process_tor_mode torMode with
    | Except.error e => Except.error e
    | Except.ok (parts, ob) => Except.ok (CfgVal.strList parts, ob.getD outboundProxy)
  else Except.ok (CfgVal.str torMode, outboundProxy)

/-- Embedding of the shared tail of the outbound-proxy check (`cli.py`
lines 134-141): the combined field list must have length 2 or 3 and its last
field must parse as an integer port. -/
def outbound_len_port_check (l : List String) : Except PyErr (List String) :=
  if ¬ (l.length = 2 ∨ l.length = 3) then
    Except.error (PyErr.usage "Invalid argument for Outbound Proxy")
  else if ¬ pyIntParses (pyLastStr l) then
    Except.error (PyErr.usage "Invalid port provided for Outbound Proxy")
  else Except.ok l

/-- Embedding of the outbound-proxy parse (`cli.py` lines 126-141): split on
`"://"`; with exactly two parts, `lst + lst.pop().split(":")` prepends the
scheme (which must be `socks` or `http`) to the colon-split remainder; with
any other part count, the last part alone is colon-split; then the combined
list runs through `outbound_len_port_check`. -/
def parse_outbound (s : String) : Except PyErr (List String) :=
  let parts := pySplitSchemeSep s
  if parts.length = 2 then
    let combined := parts.headD "" :: pySplitChar ':' (pyLastStr parts)
    if ¬ (combined.headD "" = "socks" ∨ combined.headD "" = "http") then
      Except.error (PyErr.usage "Invalid argument for Outbound Proxy")
    else outbound_len_port_check combined
  else outbound_len_port_check (pySplitChar ':' (pyLastStr parts))

/-- Embedding of the inbound-proxy parse (`cli.py` lines 143-151): split on
`":"`; 1 or 2 fields, last field an integer port. -/
def parse_inbound (s : String) : Except PyErr (List String) :=
  let parts := pySplitChar ':' s
  if ¬ (parts.length = 1 ∨ parts.length = 2) then
    Except.error (PyErr.usage "Invalid argument for Inbound Proxy")
  else if ¬ pyIntParses (pyLastStr parts) then
    Except.error (PyErr.usage "Invalid port for Inbound Proxy")
  else Except.ok parts

/-- Embedding of the `arg.OutboundProxy` guard around `parse_outbound`. -/
def resolve_outbound (s : String) : Except PyErr CfgVal :=
  if s ≠ "" then
    match parse_outbound s with
    | Except.error e => Except.error e
    | Except.ok l => Except.ok (CfgVal.strList l)
  else Except.ok (CfgVal.str s)

/-- Embedding of the `arg.InboundProxy` guard around `parse_inbound`. -/
def resolve_inbound (s : String) : Except PyErr CfgVal :=
  if s ≠ "" then
    match parse_inbound s with
    | Except.error e => Except.error e
    | Except.ok l => Except.ok (CfgVal.strList l)
  else Except.ok (CfgVal.str s)

/-- Embedding of the plugin-type expansion (`cli.py` lines 153-157):
`all` expands to every type of the (possibly overridden) group, `quiet` to
`[passive, semi_passive]`, anything else passes through. -/
def resolve_plugin_type (C : Collab) (plugin_group pluginType : String) : CfgVal :=
  if pluginType = "all" then CfgVal.strList (C.get_types_for_plugin_group plugin_group)
  else if pluginType = "quiet" then CfgVal.strList ["passive", "semi_passive"]
  else CfgVal.str pluginType

/-- Line-cleaning step of the scope-file loop: `strip` the line and drop it
when blank. -/
def cleanLine (t : String) : Option String :=
  let c := pyStrip t
  if c = "" then none else some c

/-- Embedding of the scope resolution (`cli.py` lines 160-176): with a
non-auxiliary group, no targets and no plugin listing the scope passes
through unchanged (the `TODO` branch); with exactly one target naming an
existing file the scope is replaced by the file's stripped non-blank lines,
an empty result being a usage error; otherwise the targets are used
verbatim. -/
def resolve_scope (fs : FS) (targets : List String) (plugin_group : String)
    (list_plugins : Bool) : Except PyErr (List String) :=
  let scope := targets
  let num_targets := scope.length
  if plugin_group ≠ "auxiliary" ∧ num_targets = 0 ∧ ¬ list_plugins then
    Except.ok scope
  else if num_targets = 1 then
    if fs.isfile (scope.headD "") then
      let new_scope := (pySplitChar '\n' (fs.read (scope.headD ""))).filterMap cleanLine
      if new_scope.length = 0 then
        Except.error (PyErr.usage "Please provide a scope file (1 target x line)")
      else Except.ok new_scope
    else Except.ok scope
  else Except.ok scope

/-- Embedding of the leading-dash target validation (`cli.py` lines
178-180): for each target in order, subscript its first character (a Python
`IndexError` on an empty target) and fail with `usage("Invalid Target: ...")`
when it is a dash. -/
def leading_dash_check : List String → Except PyErr Unit
  | [] => Except.ok ()
  | t :: rest =>
    match pyStrIndex t 0 with
    | Except.error e => Except.error e
    | Except.ok c =>
      if c = '-' then Except.error (PyErr.usage ("Invalid Target: " ++ t))
      else leading_dash_check rest

/-- Final assembly of the returned dictionary (`cli.py` lines 182-210),
including the auxiliary-group move of the scope into `Args`. -/
def assemble (argv : List String) (a : Args) (profiles : List (String × String))
    (plugin_group : String) (onlyF exceptF torF outboundF inboundF pluginTypeF : CfgVal)
    (scope : List String) : Config :=
  let argsScope : CfgVal × List String :=
    if plugin_group = "auxiliary" then (CfgVal.strList scope, ["auxiliary"])
    else (CfgVal.str "", scope)
  { list_plugins := a.list_plugins
    Force_Overwrite := a.ForceOverwrite
    Interactive := a.Interactive = "yes"
    Simulation := a.Simulation
    Scope := argsScope.2
    argv := argv
    PluginType := pluginTypeF
    OnlyPlugins := onlyF
    ExceptPlugins := exceptF
    InboundProxy := inboundF
    OutboundProxy := outboundF
    OutboundProxyAuth := a.OutboundProxyAuth
    Profiles := profiles
    PluginGroup := plugin_group
    RPort := a.RPort
    PortWaves := a.PortWaves
    ProxyMode := a.ProxyMode
    TOR_mode := torF
    nowebui := a.nowebui
    Args := argsScope.1 }

/-- Embedding of `process_options` (`cli.py` lines 62-210): the fixed
sequence of resolution steps, each of which may terminate the process
(modelled by the `Except` error channel).  `argv` models `sys.argv`, fixed
for the duration of the process. -/
def process_options (C : Collab) (fs : FS) (argv : List String) (a : Args) :
    Except PyErr Config := do
  let profiles ← resolve_profiles fs a.CustomProfile
  let (onlyF, plugin_group) ← resolve_only_plugins C a.PluginGroup a.OnlyPlugins
  let exceptF ← resolve_except_plugins C a.ExceptPlugins
  let (torF, outboundStr) ← resolve_tor a.TOR_mode a.OutboundProxy
  let outboundF ← resolve_outbound outboundStr
  let inboundF ← resolve_inbound a.InboundProxy
  let pluginTypeF := resolve_plugin_type C plugin_group a.PluginType
  let scope ← resolve_scope fs a.Targets plugin_group a.list_plugins
  let _ ← leading_dash_check scope
  Except.ok (assemble argv a profiles plugin_group onlyF exceptF torF outboundF
    inboundF pluginTypeF scope)

/-! ## The orchestration bootstrapper (embedding of `main`, `cli.py` lines 213-258)

`main` is modelled as a trace-producing function: the external collaborators
appear as events, the engine behaviour (return value of `core.start`,
`KeyboardInterrupt`, `SystemExit`) is an input, and a database that is not
running makes `_ensure_default_session` raise `DatabaseNotRunning`.  The
crucial structural fact of the source is preserved: the
`try/except DatabaseNotRunning` block and the `process_options` call are
*outside* the `try/.../finally` block whose `finally` performs
`clean_temp_storage_dirs(owtf_pid)`. -/

/-- Behaviour of the external scan engine during `core.start`. -/
inductive EngineRun where
  | ret (worked : Bool)
  | keyboardInterrupt
  | systemExit
  deriving DecidableEq, Repr

/-- Observable calls into the external collaborators made by `main`. -/
inductive Event where
  | banner
  | ensureSession
  | loadConfigs
  | publishConfig
  | logVersion
  | engineStart
  | engineFinish
  | cleanup (pid : Nat)
  deriving DecidableEq, Repr

/-- How the `main` invocation of the process ends. -/
inductive MainOutcome where
  | exitDbDown
  | usageExit (msg : String)
  | torHelpExit
  | indexCrash
  | normal
  deriving DecidableEq, Repr

namespace cli

/-- Embedding of `main` (`cli.py` lines 213-258).  The first `try` block
(session bootstrap and profile/plugin loading) exits the process with
`sys.exit(-1)` on `DatabaseNotRunning`; `process_options` runs between the
two `try` blocks, so its `usage(...)`/`exit(0)` terminations also escape;
only the engine-invocation `try` block carries the `finally` that performs
the temporary-storage cleanup keyed by the captured pid. -/
def main (C : Collab) (fs : FS) (parse : List String → Args) (dbRunning : Bool)
    (eng : EngineRun) (pid : Nat) (argv : List String) : MainOutcome × List Event :=
  if dbRunning then
    match process_options C fs argv (parse (argv.drop 1)) with
    | Except.error (PyErr.usage m) =>
      (MainOutcome.usageExit m, [Event.banner, Event.ensureSession, Event.loadConfigs])
    | Except.error PyErr.exitSuccess =>
      (MainOutcome.torHelpExit, [Event.banner, Event.ensureSession, Event.loadConfigs])
    | Except.error PyErr.indexError =>
      (MainOutcome.indexCrash, [Event.banner, Event.ensureSession, Event.loadConfigs])
    | Except.ok _ =>
      let pre := [Event.banner, Event.ensureSession, Event.loadConfigs,
        Event.publishConfig, Event.logVersion]
      match eng with
      | EngineRun.ret true =>
        (MainOutcome.normal, pre ++ [Event.engineStart, Event.engineFinish, Event.cleanup pid])
      | EngineRun.ret false =>
        (MainOutcome.normal, pre ++ [Event.engineStart, Event.cleanup pid])
      | EngineRun.keyboardInterrupt =>
        (MainOutcome.normal, pre ++ [Event.engineStart, Event.engineFinish, Event.cleanup pid])
      | EngineRun.systemExit =>
        (MainOutcome.normal, pre ++ [Event.engineStart, Event.cleanup pid])
  else
    (MainOutcome.exitDbDown, [Event.banner, Event.ensureSession])

end cli

/-! ## Concrete fixtures used by counterexamples and witnesses -/

/-- Plugin registry with no known plugin (every lookup yields no group). -/
def emptyCollab : Collab :=
  { get_groups_for_plugins := fun _ => []
    get_types_for_plugin_group := fun _ => ["active", "passive"] }

/-- Plugin registry in which every plugin list touches the two groups
`web` and `net`. -/
def twoGroupCollab : Collab :=
  { get_groups_for_plugins := fun _ => ["web", "net"]
    get_types_for_plugin_group := fun _ => ["active", "passive"] }

/-- Filesystem with no entries. -/
def emptyFS : FS :=
  { pathExists := fun _ => false
    isfile := fun _ => false
    read := fun _ => "" }

/-- Filesystem with a single scope file `scope.txt` containing
`"a.com\n\nb.com\n"`. -/
def scopeFS : FS :=
  { pathExists := fun p => p == "scope.txt"
    isfile := fun p => p == "scope.txt"
    read := fun _ => "a.com\n\nb.com\n" }

/-- Baseline raw arguments: group `web`, type `active`, no options, no
targets. -/
def args0 : Args :=
  { PluginGroup := "web"
    PluginType := "active"
    CustomProfile := ""
    OnlyPlugins := ""
    ExceptPlugins := ""
    TOR_mode := ""
    OutboundProxy := ""
    InboundProxy := ""
    OutboundProxyAuth := ""
    Targets := []
    list_plugins := false
    ForceOverwrite := false
    Interactive := "no"
    Simulation := false
    RPort := ""
    PortWaves := ""
    ProxyMode := ""
    nowebui := false }


/-- Scope-file lines according to the specification's words (contrast with
the loop inside `resolve_scope`): split the content on newline, trim each
line, and drop blank lines, keeping file order. -/
def specScopeLines (content : String) : List String :=
  ((pySplitChar '\n' content).map pyStrip).filter (fun l => l ≠ "")

/-- Raw arguments selecting the `auxiliary` plugin group with two
metasploit-like parameters. -/
def argsAux : Args :=
  { args0 with PluginGroup := "auxiliary", Targets := ["p1", "p2"] }

/-- Configuration produced by the baseline fixture run (used to apply the
hypothesis-carrying theorems at a concrete successful resolution). -/
def cfg0 : Config :=
  (process_options emptyCollab emptyFS ["owtf"] args0).toOption.getD default

/-- Configuration produced by the auxiliary-group fixture run. -/
def cfgAux : Config :=
  (process_options emptyCollab emptyFS ["owtf"] argsAux).toOption.getD default

/-! ## Sanity checks of the embedding against Python behaviour -/

example : pySplitChar ':' "a:b" = ["a", "b"] := by decide
example : pySplitChar ':' "" = [""] := by decide
example : pySplitChar ':' "::u:p:f" = ["", "", "u", "p", "f"] := by decide
example : pySplitSchemeSep "socks://1.2.3.4:9050" = ["socks", "1.2.3.4:9050"] := by decide
example : pySplitSchemeSep "1.2.3.4:9050" = ["1.2.3.4:9050"] := by decide
example : pyStrip "  a.com\n" = "a.com" := by decide
example : pyIntParses "9050" = true := by decide
example : pyIntParses "%s" = false := by decide
example : pyFormat "socks://%s:%s" ["127.0.0.1", "9050"] = "socks://%s:%s" := by decide
example : parse_outbound "socks://127.0.0.1:9050" = Except.ok ["socks", "127.0.0.1", "9050"] := rfl
example : parse_outbound "10.0.0.1:8080" = Except.ok ["10.0.0.1", "8080"] := rfl
example : parse_outbound "http://x:abc" =
    Except.error (PyErr.usage "Invalid port provided for Outbound Proxy") := rfl
example : process_tor_mode ":::flag" = Except.error (PyErr.usage "Invalid argument for TOR-mode") := rfl

/-! ## Helper lemmas -/

/-- Inversion of a successful `Except` bind: both stages succeeded. -/
theorem exceptBind_ok {ε α β : Type} {x : Except ε α} {f : α → Except ε β} {b : β}
    (h : x >>= f = Except.ok b) : ∃ a, x = Except.ok a ∧ f a = Except.ok b := by
  cases x with
  | error e => simp [Bind.bind, Except.bind] at h
  | ok a => exact ⟨a, rfl, h⟩

/-- Formatting with a template that contains no opening brace returns the
template unchanged (Python `str.format` semantics; surplus arguments are
ignored). -/
theorem pyFormatAux_of_no_brace :
    ∀ (cs : List Char) (args : List String), '{' ∉ cs → pyFormatAux cs args = cs := by
  intro cs
  induction cs with
  | nil => intro args _; rfl
  | cons c tail ih =>
    intro args h
    have hc : c ≠ '{' := fun hc => h (by simp [hc])
    cases tail with
    | nil => rfl
    | cons c2 rest =>
      have hcond : ¬ (c = '{' ∧ c2 = '}') := fun hp => hc hp.1
      simp only [pyFormatAux, if_neg hcond]
      have := ih args (fun hm => h (List.mem_cons_of_mem _ hm))
      rw [this]

/-- String-level version of `pyFormatAux_of_no_brace`. -/
theorem pyFormat_of_no_brace (t : String) (args : List String) (h : '{' ∉ t.data) :
    pyFormat t args = t := by
  obtain ⟨d⟩ := t
  unfold pyFormat
  rw [pyFormatAux_of_no_brace _ _ h]

/-- The scope-file loop of the source computes exactly the specification's
trim-then-drop-blanks description. -/
theorem filterMap_cleanLine (l : List String) :
    l.filterMap cleanLine = (l.map pyStrip).filter (fun x => x ≠ "") := by
  induction l with
  | nil => rfl
  | cons t rest ih =>
    simp only [List.filterMap_cons, List.map_cons, List.filter_cons, cleanLine]
    by_cases hc : pyStrip t = ""
    · simp [hc, ih]
    · simp [hc, ih]

/-- Inversion of a successful `process_options` run into the nine resolution
stages of the source, in their fixed order. -/
theorem process_options_ok_inv {C : Collab} {fs : FS} {argv : List String} {a : Args}
    {cfg : Config} (h : process_options C fs argv a = Except.ok cfg) :
    ∃ profiles onlyF pg exceptF torF obs obF ibF sc,
      resolve_profiles fs a.CustomProfile = Except.ok profiles ∧
      resolve_only_plugins C a.PluginGroup a.OnlyPlugins = Except.ok (onlyF, pg) ∧
      resolve_except_plugins C a.ExceptPlugins = Except.ok exceptF ∧
      resolve_tor a.TOR_mode a.OutboundProxy = Except.ok (torF, obs) ∧
      resolve_outbound obs = Except.ok obF ∧
      resolve_inbound a.InboundProxy = Except.ok ibF ∧
      resolve_scope fs a.Targets pg a.list_plugins = Except.ok sc ∧
      leading_dash_check sc = Except.ok () ∧
      cfg = assemble argv a profiles pg onlyF exceptF torF obF ibF
        (resolve_plugin_type C pg a.PluginType) sc := by
  unfold process_options at h
  obtain ⟨profiles, h1, h⟩ := exceptBind_ok h
  obtain ⟨⟨onlyF, pg⟩, h2, h⟩ := exceptBind_ok h
  obtain ⟨exceptF, h3, h⟩ := exceptBind_ok h
  obtain ⟨⟨torF, obs⟩, h4, h⟩ := exceptBind_ok h
  obtain ⟨obF, h5, h⟩ := exceptBind_ok h
  obtain ⟨ibF, h6, h⟩ := exceptBind_ok h
  obtain ⟨sc, h7, h⟩ := exceptBind_ok h
  obtain ⟨u, h8, h⟩ := exceptBind_ok h
  cases h
  exact ⟨profiles, onlyF, pg, exceptF, torF, obs, obF, ibF, sc,
    h1, h2, h3, h4, h5, h6, h7, by cases u; exact h8, rfl⟩

/-! ## Claim C1 — cleanup on every exit path (corrected)

The source's `finally: clean_temp_storage_dirs(owtf_pid)` is attached only
to the engine-invocation `try` block; the `DatabaseNotRunning` handler
(`sys.exit(-1)`) and the `usage(...)` terminations raised inside
`process_options` escape *before* the cleanup-guarded region. -/

/-- Claim C1, counterexample: on a run whose backing database is not
running, the bootstrapper exits fatally and the temporary-storage cleanup
keyed by the captured pid is never performed — refuting that cleanup runs
on every exit path including the fatal `DatabaseNotRunning` termination. -/
theorem cleanup_skipped_on_db_down :
    cli.main emptyCollab emptyFS (fun _ => args0) false (EngineRun.ret true) 42 ["owtf"]
      = (MainOutcome.exitDbDown, [Event.banner, Event.ensureSession]) ∧
    Event.cleanup 42 ∉
      (cli.main emptyCollab emptyFS (fun _ => args0) false (EngineRun.ret true) 42 ["owtf"]).2 :=
  ⟨rfl, by decide⟩

/-- Claim C1, amended: temporary-storage cleanup keyed by the captured
process identifier is performed as the final action on every run that
reaches the engine-invocation phase (database up and argument resolution
successful), for each engine behaviour — real work, listing-only return,
user interrupt, cooperative exit — but is *not* performed when argument
resolution terminates with a usage error (and, per the counterexample, not
on the fatal database exit either). -/
theorem cleanup_guards_engine_phase :
    (∀ (C : Collab) (fs : FS) (parse : List String → Args) (eng : EngineRun) (pid : Nat)
        (argv : List String) (cfg : Config),
        process_options C fs argv (parse (argv.drop 1)) = Except.ok cfg →
        (cli.main C fs parse true eng pid argv).2.getLast? = some (Event.cleanup pid)) ∧
    (∀ (C : Collab) (fs : FS) (parse : List String → Args) (eng : EngineRun) (pid : Nat)
        (argv : List String) (m : String),
        process_options C fs argv (parse (argv.drop 1)) = Except.error (PyErr.usage m) →
        Event.cleanup pid ∉ (cli.main C fs parse true eng pid argv).2) := by
  constructor
  · intro C fs parse eng pid argv cfg h
    unfold cli.main
    rw [if_pos rfl, h]
    cases eng with
    | ret worked => cases worked <;> rfl
    | keyboardInterrupt => rfl
    | systemExit => rfl
  · intro C fs parse eng pid argv m h
    unfold cli.main
    rw [if_pos rfl, h]
    simp

/-- Claim C1, witness: a successful baseline run ends in cleanup of pid 42;
a run whose resolution dies on the invalid target `-y` never performs the
cleanup of its pid 7. -/
theorem cleanup_guards_engine_phase_witness :
    (cli.main emptyCollab emptyFS (fun _ => args0) true (EngineRun.ret true) 42 ["owtf"]).2.getLast?
      = some (Event.cleanup 42) ∧
    Event.cleanup 7 ∉
      (cli.main emptyCollab emptyFS (fun _ => { args0 with Targets := ["-y"] }) true
        (EngineRun.ret true) 7 ["owtf"]).2 :=
  ⟨cleanup_guards_engine_phase.1 emptyCollab emptyFS (fun _ => args0) (EngineRun.ret true)
      42 ["owtf"] cfg0 rfl,
   cleanup_guards_engine_phase.2 emptyCollab emptyFS (fun _ => { args0 with Targets := ["-y"] })
      (EngineRun.ret true) 7 ["owtf"] "Invalid Target: -y" rfl⟩

/-! ## Claim C2 — TOR-derived outbound proxy (code bug)

The source synthesizes the outbound proxy with
`"socks://%s:%s".format(outbound_proxy_ip, outbound_proxy_port)`:
`str.format` on a template with `%`-style placeholders and no brace fields
returns the template unchanged, so the derived string is the literal
`socks://%s:%s`, whose final colon-field `%s` is not an integer, and the
re-parse fails with `usage("Invalid port provided for Outbound Proxy")` —
never the intended `socks://127.0.0.1:9050`. -/

/-- Claim C2: evaluation of the code at the failing input `"::u:p:f"`.
The TOR parse succeeds but synthesizes the literal template
`socks://%s:%s` (second conjunct: Python `format` leaves it unchanged even
with the intended arguments), and the end-to-end resolution dies with the
outbound-port usage error instead of deriving `socks://127.0.0.1:9050`. -/
theorem tor_outbound_format_bug :
    process_tor_mode "::u:p:f" = Except.ok (["", "", "u", "p", "f"], some "socks://%s:%s") ∧
    pyFormat "socks://%s:%s" ["127.0.0.1", "9050"] = "socks://%s:%s" ∧
    process_options emptyCollab emptyFS ["owtf"] { args0 with TOR_mode := "::u:p:f" }
      = Except.error (PyErr.usage "Invalid port provided for Outbound Proxy") :=
  ⟨rfl, rfl, rfl⟩

/-! ## Claim C3 — ambiguous plugin lists are a usage error (confirmed) -/

/-- Claim C3: whenever the plugin-identifier list of an `OnlyPlugins` or
`ExceptPlugins` option resolves to two or more distinct owning groups,
`get_plugins_from_arg` — the shared resolver both options run — fails with
a `UsageError`; it never returns a silently chosen group.  (The message is
the raw `%s` template because the source formats it with `str.format`.) -/
theorem multi_group_plugins_usage_error (C : Collab) (arg : String)
    (h : 2 ≤ (C.get_groups_for_plugins (pySplitChar ',' arg)).length) :
    get_plugins_from_arg C arg =
      Except.error (PyErr.usage
        "The plugins specified belong to several plugin groups: '%s'") := by
  unfold get_plugins_from_arg
  rw [if_pos (by omega)]
  rw [pyFormat_of_no_brace _ _ (by decide)]

/-- Claim C3, witness: a two-group registry rejects a concrete two-plugin
list. -/
theorem multi_group_plugins_usage_error_witness :
    2 ≤ (twoGroupCollab.get_groups_for_plugins (pySplitChar ',' "OWTF-WVS-001,OWTF-WVS-006")).length ∧
    get_plugins_from_arg twoGroupCollab "OWTF-WVS-001,OWTF-WVS-006"
      = Except.error (PyErr.usage
          "The plugins specified belong to several plugin groups: '%s'") :=
  ⟨by decide,
   multi_group_plugins_usage_error twoGroupCollab "OWTF-WVS-001,OWTF-WVS-006" (by decide)⟩

/-! ## Claim C4 — single existing-file target replaces the scope (confirmed) -/

/-- Claim C4: with exactly one positional argument naming an existing file,
the scope becomes exactly the file's newline-split, whitespace-trimmed,
non-blank lines in file order (`specScopeLines`, written from the spec's
words), and an empty resulting list is the scope-file usage error. -/
theorem scope_file_replaces_scope (fs : FS) (t g : String) (lp : Bool)
    (h : fs.isfile t = true) :
    resolve_scope fs [t] g lp =
      if specScopeLines (fs.read t) = [] then
        Except.error (PyErr.usage "Please provide a scope file (1 target x line)")
      else Except.ok (specScopeLines (fs.read t)) := by
  unfold resolve_scope
  rw [if_neg (by simp)]
  rw [if_pos (show ([t] : List String).length = 1 from rfl)]
  rw [List.headD_cons]
  rw [if_pos h]
  rw [filterMap_cleanLine]
  rw [show ((pySplitChar '\n' (fs.read t)).map pyStrip).filter (fun x => x ≠ "")
      = specScopeLines (fs.read t) from rfl]
  generalize specScopeLines (fs.read t) = L
  cases L <;> simp

/-- Claim C4, witness: the spec's own example — a scope file containing
`"a.com\n\nb.com\n"` yields `["a.com", "b.com"]` with the blank line
dropped. -/
theorem scope_file_replaces_scope_witness :
    scopeFS.isfile "scope.txt" = true ∧
    resolve_scope scopeFS ["scope.txt"] "web" false = Except.ok ["a.com", "b.com"] :=
  ⟨rfl, (scope_file_replaces_scope scopeFS "scope.txt" "web" false rfl).trans (by rfl)⟩

/-! ## Claim C5 — scheme with the extra port field (corrected)

In the source the scheme is *prepended* to the colon-split remainder, so
`scheme://host:port:port2` produces four combined fields, which the
`len not in [2, 3]` check rejects; the optional extra field is only
accepted when no scheme is present. -/

/-- Claim C5, counterexample: a spec of the claimed grammar form — valid
scheme, host, port, extra field, integer final field — is rejected with a
`UsageError` instead of being accepted. -/
theorem scheme_with_extra_field_rejected_cex :
    parse_outbound "socks://1.2.3.4:1080:9050"
      = Except.error (PyErr.usage "Invalid argument for Outbound Proxy") := rfl

/-- Claim C5, amended: every outbound spec with a scheme separator, a
recognized scheme, and *three* colon-fields after the scheme (host, port,
extra) is rejected with the outbound-proxy usage error, because the
prepended scheme brings the combined field count to four, outside the
allowed 2-3. -/
theorem scheme_with_extra_field_rejected (s : String)
    (h2 : (pySplitSchemeSep s).length = 2)
    (hs : (pySplitSchemeSep s).headD "" = "socks" ∨ (pySplitSchemeSep s).headD "" = "http")
    (h3 : (pySplitChar ':' (pyLastStr (pySplitSchemeSep s))).length = 3) :
    parse_outbound s = Except.error (PyErr.usage "Invalid argument for Outbound Proxy") := by
  unfold parse_outbound
  rw [if_pos h2]
  rw [if_neg (by rw [List.headD_cons]; tauto)]
  unfold outbound_len_port_check
  rw [if_pos (by rw [List.length_cons, h3]; decide)]

/-- Claim C5, witness: `socks://h:1:2` satisfies all three hypotheses and
is rejected. -/
theorem scheme_with_extra_field_rejected_witness :
    (pySplitSchemeSep "socks://h:1:2").length = 2 ∧
    (pySplitSchemeSep "socks://h:1:2").headD "" = "socks" ∧
    (pySplitChar ':' (pyLastStr (pySplitSchemeSep "socks://h:1:2"))).length = 3 ∧
    parse_outbound "socks://h:1:2"
      = Except.error (PyErr.usage "Invalid argument for Outbound Proxy") :=
  ⟨rfl, rfl, rfl,
   scheme_with_extra_field_rejected "socks://h:1:2" rfl (Or.inl rfl) rfl⟩

/-! ## Claim C6 — auxiliary group moves the scope into Args (confirmed) -/

/-- Claim C6: on every successful resolution whose (possibly overridden)
plugin group is the sentinel `auxiliary`, the emitted `Scope` is exactly
`["auxiliary"]` and the `Args` field holds precisely the list the Scope
Resolver produced for the given targets. -/
theorem auxiliary_moves_scope_to_args (C : Collab) (fs : FS) (argv : List String)
    (a : Args) (cfg : Config) (h : process_options C fs argv a = Except.ok cfg)
    (hg : cfg.PluginGroup = "auxiliary") :
    cfg.Scope = ["auxiliary"] ∧
    (resolve_scope fs a.Targets "auxiliary" a.list_plugins).map CfgVal.strList
      = Except.ok cfg.Args := by
  obtain ⟨profiles, onlyF, pg, exceptF, torF, obs, obF, ibF, sc,
    _, _, _, _, _, _, h7, _, hcfg⟩ := process_options_ok_inv h
  subst hcfg
  simp only [assemble] at hg
  subst hg
  rw [h7]
  simp [assemble, Except.map]

/-- Claim C6, witness: the auxiliary fixture run emits scope
`["auxiliary"]` and carries `["p1", "p2"]` in `Args`. -/
theorem auxiliary_moves_scope_to_args_witness :
    process_options emptyCollab emptyFS ["owtf"] argsAux = Except.ok cfgAux ∧
    cfgAux.PluginGroup = "auxiliary" ∧
    cfgAux.Scope = ["auxiliary"] ∧
    (resolve_scope emptyFS argsAux.Targets "auxiliary" argsAux.list_plugins).map CfgVal.strList
      = Except.ok cfgAux.Args :=
  ⟨rfl, rfl,
   (auxiliary_moves_scope_to_args emptyCollab emptyFS ["owtf"] argsAux cfgAux rfl rfl).1,
   (auxiliary_moves_scope_to_args emptyCollab emptyFS ["owtf"] argsAux cfgAux rfl rfl).2⟩

/-! ## Claim C7 — resolution is deterministic (confirmed)

In the embedding the process-fixed state (`sys.argv`, the filesystem, the
plugin registry) is an explicit parameter, and the mutation of the parsed
`arg` object is modelled functionally; with those held fixed, resolution is
a pure function of the raw arguments. -/

/-- Claim C7: two successful resolutions of the same raw arguments within
the same process (same collaborators, filesystem, and argv) yield identical
configurations. -/
theorem process_options_deterministic (C : Collab) (fs : FS) (argv : List String)
    (a : Args) (cfg₁ cfg₂ : Config)
    (h₁ : process_options C fs argv a = Except.ok cfg₁)
    (h₂ : process_options C fs argv a = Except.ok cfg₂) : cfg₁ = cfg₂ := by
  rw [h₁] at h₂
  exact Except.ok.inj h₂

/-- Claim C7, witness: the baseline fixture resolves successfully and both
runs agree. -/
theorem process_options_deterministic_witness :
    process_options emptyCollab emptyFS ["owtf"] args0 = Except.ok cfg0 ∧ cfg0 = cfg0 :=
  ⟨rfl, process_options_deterministic emptyCollab emptyFS ["owtf"] args0 cfg0 cfg0 rfl rfl⟩

/-! ## Claim C8 — empty target and the unguarded `target[0]` (corrected)

The check `target[0] == "-"` indeed has no emptiness guard, so an empty
target raises `IndexError` — but only when it is reached: a *preceding*
target that starts with a dash terminates resolution with a `UsageError`
first, so the claim's universal "rather than a UsageError" fails. -/

/-- Claim C8, counterexample: the resolved scope `["-x", ""]` contains an
empty-string target, yet resolution fails with the dash `UsageError`, not
with an out-of-range indexing error. -/
theorem empty_target_usage_not_index_cex :
    process_options emptyCollab emptyFS ["owtf"] { args0 with Targets := ["-x", ""] }
      = Except.error (PyErr.usage "Invalid Target: -x") ∧
    PyErr.usage "Invalid Target: -x" ≠ PyErr.indexError :=
  ⟨rfl, by decide⟩

/-- Claim C8, amended: the leading-dash check raises the out-of-range
indexing error on a scope containing an empty-string target provided every
earlier target is non-empty and does not begin with a dash; and the check
is total (never raises the indexing error) exactly under the precondition
that every target string is non-empty. -/
theorem empty_target_index_error :
    (∀ (pre rest : List String),
        (∀ t ∈ pre, t.data ≠ [] ∧ t.data.headD ' ' ≠ '-') →
        leading_dash_check (pre ++ "" :: rest) = Except.error PyErr.indexError) ∧
    (∀ (scope : List String), (∀ t ∈ scope, t.data ≠ []) →
        leading_dash_check scope ≠ Except.error PyErr.indexError) := by
  constructor
  · intro pre rest
    induction pre with
    | nil => intro _; rfl
    | cons t pre' ih =>
      intro h
      obtain ⟨hne, hd⟩ := h t (List.mem_cons_self t pre')
      simp only [List.cons_append, leading_dash_check, pyStrIndex]
      cases hdata : t.data with
      | nil => exact absurd hdata hne
      | cons c cs =>
        rw [hdata] at hd
        simp only [List.headD_cons] at hd
        simp only [List.get?]
        rw [if_neg hd]
        exact ih (fun u hu => h u (List.mem_cons_of_mem _ hu))
  · intro scope
    induction scope with
    | nil =>
      intro _ hcon
      simp [leading_dash_check] at hcon
    | cons t rest ih =>
      intro h hcon
      have hne := h t (List.mem_cons_self t rest)
      cases hdata : t.data with
      | nil => exact hne hdata
      | cons c cs =>
        by_cases hc : c = '-'
        · simp [leading_dash_check, pyStrIndex, hdata, hc] at hcon
        · simp only [leading_dash_check, pyStrIndex, hdata, List.get?, if_neg hc] at hcon
          exact ih (fun u hu => h u (List.mem_cons_of_mem _ hu)) hcon

/-- Claim C8, witness: `["a.com", ""]` raises the indexing error, while the
all-non-empty `["a.com"]` never does. -/
theorem empty_target_index_error_witness :
    (∀ t ∈ ["a.com"], String.data t ≠ [] ∧ (String.data t).headD ' ' ≠ '-') ∧
    leading_dash_check ["a.com", ""] = Except.error PyErr.indexError ∧
    leading_dash_check ["a.com"] ≠ Except.error PyErr.indexError :=
  ⟨by decide,
   empty_target_index_error.1 ["a.com"] [] (by decide),
   empty_target_index_error.2 ["a.com"] (by decide)⟩

/-! ## Claim C9 — non-auxiliary `Args` is the empty string (confirmed) -/

/-- Claim C9: on every successful resolution whose plugin group is not
`auxiliary`, the `Args` field of the configuration is the empty *string*
(never a list), and the resolved targets travel exactly in `Scope` — the
Scope Resolver's output for the given targets. -/
theorem non_auxiliary_args_empty_string (C : Collab) (fs : FS) (argv : List String)
    (a : Args) (cfg : Config) (h : process_options C fs argv a = Except.ok cfg)
    (hg : cfg.PluginGroup ≠ "auxiliary") :
    cfg.Args = CfgVal.str "" ∧
    resolve_scope fs a.Targets cfg.PluginGroup a.list_plugins = Except.ok cfg.Scope := by
  obtain ⟨profiles, onlyF, pg, exceptF, torF, obs, obF, ibF, sc,
    _, _, _, _, _, _, h7, _, hcfg⟩ := process_options_ok_inv h
  subst hcfg
  simp only [assemble] at hg
  constructor
  · simp [assemble, if_neg hg]
  · simp only [assemble]
    rw [if_neg hg]
    exact h7

/-- Claim C9, witness: the baseline `web` run has `Args` equal to the empty
string and `Scope` equal to the scope-resolver output. -/
theorem non_auxiliary_args_empty_string_witness :
    process_options emptyCollab emptyFS ["owtf"] args0 = Except.ok cfg0 ∧
    cfg0.PluginGroup ≠ "auxiliary" ∧
    cfg0.Args = CfgVal.str "" ∧
    resolve_scope emptyFS args0.Targets cfg0.PluginGroup args0.list_plugins
      = Except.ok cfg0.Scope :=
  ⟨rfl, by decide,
   (non_auxiliary_args_empty_string emptyCollab emptyFS ["owtf"] args0 cfg0 rfl (by decide)).1,
   (non_auxiliary_args_empty_string emptyCollab emptyFS ["owtf"] args0 cfg0 rfl (by decide)).2⟩

/-! ## Claim C10 — `help` first field short-circuits TOR mode (confirmed) -/

/-- Claim C10: whenever the first colon-field of the TOR-mode spec is the
literal `help` — whatever the total field count — the TOR block prints the
configuration guidance and exits with success status before any arity
validation runs. -/
theorem tor_help_first_field_short_circuits (s : String)
    (h : (pySplitChar ':' s).headD "" = "help") :
    process_tor_mode s = Except.error PyErr.exitSuccess := by
  unfold process_tor_mode
  rw [if_pos h]

/-- Claim C10, witness: the five-field spec `help:a:b:c:d` — which would
fail arity validation were it reached — still exits with success. -/
theorem tor_help_first_field_short_circuits_witness :
    (pySplitChar ':' "help:a:b:c:d").headD "" = "help" ∧
    process_tor_mode "help:a:b:c:d" = Except.error PyErr.exitSuccess :=
  ⟨rfl, tor_help_first_field_short_circuits "help:a:b:c:d" rfl⟩
